import Mathlib

/-!
Shallow embedding of the bytecave-relay core: the `RateLimiter` admission
controller (rate-limiter source file) and the `StorageWebSocketRelay`
request router (websocket relay source file).

Conventions of the embedding:
* JS `Map` objects become association lists `List (String × β)` with
  insertion-order semantics: `setKey` replaces in place or appends,
  matching `Map.set`; `Map.delete` becomes `eraseKey`.
* Timestamps (`Date.now()` values, ms) are `Int`; counters are `Nat`.
* Decision reason strings are represented by the inductive `DenyReason`
  (the source returns human-readable strings; the constructor names
  record which string is produced, with the data interpolated into it).
* WebSocket channels are identified by `Nat` handles.  `ws.send`, which
  may throw, is modelled by an oracle `sendOk : Nat → Bool`; a call's
  outputs are the list of messages that were actually delivered.
-/

namespace ByteCave

/-! ### Association-list maps (JS `Map` semantics) -/

def lookupKey {β : Type} (m : List (String × β)) (k : String) : Option β :=
  match m with
  | [] => none
  | (k', v) :: rest => if k' = k then some v else lookupKey rest k

def setKey {β : Type} (m : List (String × β)) (k : String) (v : β) :
    List (String × β) :=
  match m with
  | [] => [(k, v)]
  | (k', v') :: rest =>
      if k' = k then (k, v) :: rest else (k', v') :: setKey rest k v

def eraseKey {β : Type} (m : List (String × β)) (k : String) :
    List (String × β) :=
  m.filter (fun p => p.1 ≠ k)

def keysOf {β : Type} (m : List (String × β)) : List String := m.map Prod.fst

/-! ### Rate limiter data model (rate-limiter source file) -/

structure RateLimitConfig where
  maxConnectionsPerPeer : Nat
  maxConnectionsPerIP : Nat
  connectionWindowMs : Int
  maxBandwidthPerPeerMbps : Nat
  globalMaxConnections : Nat
  blockDurationMs : Int
deriving Repr, DecidableEq

structure PeerMetrics where
  connections : Nat
  lastConnection : Int
  bandwidth : Nat
  lastBandwidthReset : Int
  blocked : Bool
  blockedUntil : Int
deriving Repr, DecidableEq

structure IPMetrics where
  connections : Nat
  lastConnection : Int
  peerIds : List String
deriving Repr, DecidableEq

structure RateLimiter where
  config : RateLimitConfig
  peerMetrics : List (String × PeerMetrics)
  ipMetrics : List (String × IPMetrics)
  blockedIPs : List String
deriving Repr, DecidableEq

/-- The reason component of a deny decision; each constructor corresponds
to one reason string produced by the source. -/
inductive DenyReason
  /-- "Global connection limit reached" -/
  | globalLimit
  /-- "IP address blocked" -/
  | ipBlocked
  /-- "IP connection limit exceeded" -/
  | ipLimit
  /-- "Peer blocked until <ISO time of blockedUntil>" -/
  | peerBlocked (blockedUntil : Int)
  /-- "Connection rate limit exceeded" -/
  | peerRate
  /-- "Bandwidth limit exceeded" -/
  | bandwidthLimit
deriving Repr, DecidableEq

inductive Decision
  | allow
  | deny (reason : DenyReason)
deriving Repr, DecidableEq

/-- JS `Set.add`: insert if absent, preserving insertion order. -/
def addToSet (s : List String) (x : String) : List String :=
  if x ∈ s then s else s ++ [x]

/-- The peers counted by the global-limit check: those whose
`lastConnection` lies within the connection window of `now`. -/
def countActive (st : RateLimiter) (now : Int) : Nat :=
  (st.peerMetrics.filter
    (fun p => now - p.2.lastConnection < st.config.connectionWindowMs)).length

/-- `RateLimiter.checkIPLimit` (private helper). -/
def checkIPLimit (st : RateLimiter) (ip : String) (now : Int) :
    Decision × RateLimiter :=
  match lookupKey st.ipMetrics ip with
  | none =>
      (Decision.allow,
       { st with ipMetrics := setKey st.ipMetrics ip ⟨1, now, []⟩ })
  | some m =>
      if now - m.lastConnection ≥ st.config.connectionWindowMs then
        (Decision.allow,
         { st with ipMetrics := setKey st.ipMetrics ip ⟨1, now, []⟩ })
      else if m.connections ≥ st.config.maxConnectionsPerIP then
        (Decision.deny DenyReason.ipLimit,
         { st with blockedIPs := addToSet st.blockedIPs ip })
      else
        let m' : IPMetrics := { m with connections := m.connections + 1 }
        (Decision.allow, { st with ipMetrics := setKey st.ipMetrics ip m' })

/-- `RateLimiter.allowConnection`. -/
def allowConnection (st : RateLimiter) (peerId : String) (ip : Option String)
    (now : Int) : Decision × RateLimiter :=
  if countActive st now ≥ st.config.globalMaxConnections then
    (Decision.deny DenyReason.globalLimit, st)
  else if (match ip with
           | some a => st.blockedIPs.contains a
           | none => false) then
    (Decision.deny DenyReason.ipBlocked, st)
  else
    let ipStep : Decision × RateLimiter :=
      match ip with
      | some a => checkIPLimit st a now
      | none => (Decision.allow, st)
    match ipStep with
    | (Decision.deny r, st1) => (Decision.deny r, st1)
    | (Decision.allow, st1) =>
      let m0 : PeerMetrics :=
        match lookupKey st1.peerMetrics peerId with
        | some m => m
        | none => ⟨0, now, 0, now, false, 0⟩
      if m0.blocked ∧ now < m0.blockedUntil then
        (Decision.deny (DenyReason.peerBlocked m0.blockedUntil),
         { st1 with peerMetrics := setKey st1.peerMetrics peerId m0 })
      else
        let m1 : PeerMetrics :=
          if m0.blocked ∧ now ≥ m0.blockedUntil then
            { m0 with blocked := false, connections := 0 }
          else m0
        if now - m1.lastConnection < st1.config.connectionWindowMs then
          if m1.connections ≥ st1.config.maxConnectionsPerPeer then
            let m2 : PeerMetrics :=
              { m1 with blocked := true,
                        blockedUntil := now + st1.config.blockDurationMs }
            (Decision.deny DenyReason.peerRate,
             { st1 with peerMetrics := setKey st1.peerMetrics peerId m2 })
          else
            let m2 : PeerMetrics := { m1 with connections := m1.connections + 1 }
            (Decision.allow,
             { st1 with peerMetrics := setKey st1.peerMetrics peerId m2 })
        else
          let m2 : PeerMetrics := { m1 with connections := 1, lastConnection := now }
          (Decision.allow,
           { st1 with peerMetrics := setKey st1.peerMetrics peerId m2 })

/-- `RateLimiter.trackBandwidth`. -/
def trackBandwidth (st : RateLimiter) (peerId : String) (bytes : Nat)
    (now : Int) : Decision × RateLimiter :=
  match lookupKey st.peerMetrics peerId with
  | none => (Decision.allow, st)
  | some m =>
    let m1 : PeerMetrics :=
      if now - m.lastBandwidthReset ≥ 1000 then
        { m with bandwidth := 0, lastBandwidthReset := now }
      else m
    let m2 : PeerMetrics := { m1 with bandwidth := m1.bandwidth + bytes }
    let maxBytesPerSecond : Nat :=
      st.config.maxBandwidthPerPeerMbps * 1024 * 1024 / 8
    if m2.bandwidth > maxBytesPerSecond then
      (Decision.deny DenyReason.bandwidthLimit,
       { st with peerMetrics := setKey st.peerMetrics peerId m2 })
    else
      (Decision.allow,
       { st with peerMetrics := setKey st.peerMetrics peerId m2 })

/-- `RateLimiter.unblockIP` (JS `Set.delete`). -/
def unblockIP (st : RateLimiter) (ip : String) : RateLimiter :=
  { st with blockedIPs := st.blockedIPs.filter (fun a => a ≠ ip) }

/-! ### Storage WebSocket relay data model (websocket relay source file) -/

structure NodeConnection where
  ws : Nat
  peerId : String
  nodeId : Option String
  connectedAt : Int
deriving Repr, DecidableEq

structure PendingRequest where
  browserWs : Nat
  requestId : String
  timestamp : Int
deriving Repr, DecidableEq

structure StorageWebSocketRelay where
  nodeConnections : List (String × NodeConnection)
  pendingRequests : List (String × PendingRequest)
deriving Repr, DecidableEq

/-- The error strings sent in `error` messages; each constructor
corresponds to one string built by the source. -/
inductive RelayErr
  /-- "Missing required fields in storage request" -/
  | missingFields
  /-- "No storage nodes available" -/
  | noNodesAvailable
  /-- "Storage node <prefix of target> not connected" -/
  | nodeNotConnected (targetPeerId : String)
  /-- "Failed to forward request to storage node" -/
  | forwardFailed
  /-- "Storage request timed out" -/
  | timedOut
deriving Repr, DecidableEq

/-- Messages the relay writes to a channel. -/
inductive OutMsg
  | registered (peerId : String) (timestamp : Int)
  /-- the `storage-request` forwarded to a storage node -/
  | forwardRequest (requestId : String) (data : String) (contentType : String)
      (authorization : Option String)
  /-- the `storage-response` forwarded back to a browser -/
  | storageResponse (requestId : String) (success : Bool) (cid : Option String)
      (error : Option String)
  /-- an `error` message -/
  | errorMsg (requestId : Option String) (error : RelayErr)
deriving Repr, DecidableEq

/-- `StorageWebSocketRelay.sendError`: the send is wrapped in try/catch,
so a dead channel produces no output. -/
def sendError (sendOk : Nat → Bool) (ws : Nat) (e : RelayErr)
    (requestId : Option String) : List (Nat × OutMsg) :=
  if sendOk ws then [(ws, OutMsg.errorMsg requestId e)] else []

/-- `StorageWebSocketRelay.handleStorageRequest`.  A missing (or falsy,
i.e. empty) `targetPeerId` is `none`; `requestId` and `data` are falsy
exactly when empty.  Returns the new state and the delivered messages. -/
def handleStorageRequest (sendOk : Nat → Bool) (st : StorageWebSocketRelay)
    (ws : Nat) (requestId : String) (data : String) (contentType : String)
    (authorization : Option String) (targetPeerId : Option String)
    (now : Int) : StorageWebSocketRelay × List (Nat × OutMsg) :=
  if requestId = "" ∨ data = "" then
    (st, sendError sendOk ws RelayErr.missingFields (some requestId))
  else
    let target? : Option String :=
      match targetPeerId with
      | some t => some t
      | none =>
        match st.nodeConnections with
        | [] => none
        | c :: _ => some c.2.peerId
    match target? with
    | none => (st, sendError sendOk ws RelayErr.noNodesAvailable (some requestId))
    | some target =>
      match lookupKey st.nodeConnections target with
      | none =>
          (st, sendError sendOk ws (RelayErr.nodeNotConnected target)
                 (some requestId))
      | some nodeConn =>
        let pending : PendingRequest := ⟨ws, requestId, now⟩
        let st1 : StorageWebSocketRelay :=
          { st with pendingRequests := setKey st.pendingRequests requestId pending }
        if sendOk nodeConn.ws then
          (st1, [(nodeConn.ws,
                  OutMsg.forwardRequest requestId data contentType authorization)])
        else
          ({ st1 with pendingRequests := eraseKey st1.pendingRequests requestId },
           sendError sendOk ws RelayErr.forwardFailed (some requestId))

/-- `StorageWebSocketRelay.handleStorageResponse`. -/
def handleStorageResponse (sendOk : Nat → Bool) (st : StorageWebSocketRelay)
    (requestId : String) (success : Bool) (cid : Option String)
    (error : Option String) : StorageWebSocketRelay × List (Nat × OutMsg) :=
  match lookupKey st.pendingRequests requestId with
  | none => (st, [])
  | some pending =>
    let outs : List (Nat × OutMsg) :=
      if sendOk pending.browserWs then
        [(pending.browserWs, OutMsg.storageResponse requestId success cid error)]
      else []
    ({ st with pendingRequests := eraseKey st.pendingRequests requestId }, outs)

/-- The timeout threshold hard-coded in `cleanupPendingRequests` (60s). -/
def pendingTimeoutMs : Int := 60000

/-- The timed-out errors emitted by one sweep over the pending table, in
iteration order. -/
def timeoutOuts (sendOk : Nat → Bool) (now : Int)
    (l : List (String × PendingRequest)) : List (Nat × OutMsg) :=
  (l.filter (fun p => now - p.2.timestamp > pendingTimeoutMs)).foldr
    (fun p acc => sendError sendOk p.2.browserWs RelayErr.timedOut (some p.1) ++ acc)
    []

/-- `StorageWebSocketRelay.cleanupPendingRequests`: every pending entry
strictly older than the threshold gets a timed-out error sent to its
origin and is removed. -/
def cleanupPendingRequests (sendOk : Nat → Bool) (st : StorageWebSocketRelay)
    (now : Int) : StorageWebSocketRelay × List (Nat × OutMsg) :=
  let remaining := st.pendingRequests.filter
    (fun p => ¬ (now - p.2.timestamp > pendingTimeoutMs))
  ({ st with pendingRequests := remaining },
   timeoutOuts sendOk now st.pendingRequests)

/-- The deny branch of the per-peer rate check: the peer's metrics get
`blocked = true` and `blockedUntil = now + blockDurationMs`. -/
def ratePenalized (st : RateLimiter) (peerId : String) (m : PeerMetrics)
    (now : Int) : RateLimiter :=
  let m' : PeerMetrics :=
    { m with blocked := true, blockedUntil := now + st.config.blockDurationMs }
  { st with peerMetrics := setKey st.peerMetrics peerId m' }

/-! ### Association-list lemmas -/

theorem lookupKey_setKey_self {β : Type} (m : List (String × β)) (k : String)
    (v : β) : lookupKey (setKey m k v) k = some v := by
  induction m with
  | nil => simp [setKey, lookupKey]
  | cons p t ih =>
    obtain ⟨a, b⟩ := p
    by_cases h : a = k
    · simp [setKey, h, lookupKey]
    · simp [setKey, h, lookupKey, ih]

theorem lookupKey_eraseKey_self {β : Type} (m : List (String × β)) (k : String) :
    lookupKey (eraseKey m k) k = none := by
  induction m with
  | nil => simp [eraseKey, lookupKey]
  | cons p t ih =>
    obtain ⟨a, b⟩ := p
    by_cases h : a = k
    · simpa [eraseKey, h] using ih
    · simpa [eraseKey, h, lookupKey] using ih

theorem eraseKey_eq_self_of_lookup_none {β : Type} (m : List (String × β))
    (k : String) (h : lookupKey m k = none) : eraseKey m k = m := by
  induction m with
  | nil => simp [eraseKey]
  | cons p t ih =>
    obtain ⟨a, b⟩ := p
    by_cases hak : a = k
    · simp [lookupKey, hak] at h
    · simp [lookupKey, hak] at h
      simp [eraseKey, hak] at ih ⊢
      exact ih h

theorem eraseKey_setKey_self {β : Type} (m : List (String × β)) (k : String)
    (v : β) : eraseKey (setKey m k v) k = eraseKey m k := by
  induction m with
  | nil => simp [setKey, eraseKey]
  | cons p t ih =>
    obtain ⟨a, b⟩ := p
    by_cases h : a = k
    · simp [setKey, h, eraseKey]
    · simp [setKey, h, eraseKey] at ih ⊢
      exact ih

theorem lookupKey_eq_none_of_not_mem_keys {β : Type} (m : List (String × β))
    (k : String) (h : k ∉ keysOf m) : lookupKey m k = none := by
  induction m with
  | nil => simp [lookupKey]
  | cons p t ih =>
    obtain ⟨a, b⟩ := p
    simp [keysOf] at h ih
    simp [lookupKey, Ne.symm h.1]
    exact ih h.2

theorem mem_setKey_self_eq {β : Type} (m : List (String × β)) (k : String)
    (v q : β) (hnd : (keysOf m).Nodup) (hq : (k, q) ∈ setKey m k v) : q = v := by
  induction m with
  | nil => simpa [setKey] using hq
  | cons p t ih =>
    obtain ⟨a, b⟩ := p
    simp [keysOf] at hnd
    by_cases h : a = k
    · subst h
      simp [setKey, hq] at hq ⊢
      rcases hq with hq | hq
      · exact hq
      · exact absurd (List.mem_map_of_mem Prod.fst hq) (by simpa [keysOf] using hnd.1)
    · simp [setKey, h] at hq
      rcases hq with ⟨hka, _⟩ | hq
      · exact absurd hka.symm h
      · exact ih hnd.2 hq

theorem not_mem_keys_filter {β : Type} (P : String × β → Bool)
    (l : List (String × β)) (k : String) (h : k ∉ keysOf l) :
    k ∉ keysOf (l.filter P) := by
  intro hmem
  apply h
  simp only [keysOf, List.mem_map] at hmem ⊢
  obtain ⟨x, hx, hfst⟩ := hmem
  exact ⟨x, List.mem_of_mem_filter hx, hfst⟩

theorem lookupKey_filter_eq_none {β : Type} (P : String × β → Bool)
    (l : List (String × β)) (k : String) (v : β)
    (hnd : (keysOf l).Nodup) (hl : lookupKey l k = some v)
    (hP : P (k, v) = false) : lookupKey (l.filter P) k = none := by
  induction l with
  | nil => simp [lookupKey] at hl
  | cons e t ih =>
    obtain ⟨a, b⟩ := e
    simp [keysOf] at hnd
    by_cases hak : a = k
    · subst hak
      simp [lookupKey] at hl
      subst hl
      rw [List.filter_cons, hP]
      exact lookupKey_eq_none_of_not_mem_keys _ _
        (not_mem_keys_filter P t a (by simpa [keysOf] using hnd.1))
    · have hl' : lookupKey t k = some v := by simpa [lookupKey, hak] using hl
      rw [List.filter_cons]
      by_cases hPa : P (a, b) = true
      · rw [hPa]
        simp only [if_true, lookupKey, if_neg hak]
        exact ih hnd.2 hl'
      · rw [Bool.not_eq_true] at hPa
        rw [hPa]
        simpa using ih hnd.2 hl'

/-! ### Lemmas about the timeout sweep's output list -/

theorem timeoutOuts_cons (sendOk : Nat → Bool) (now : Int) (k : String)
    (q : PendingRequest) (t : List (String × PendingRequest)) :
    timeoutOuts sendOk now ((k, q) :: t) =
      (if now - q.timestamp > pendingTimeoutMs then
        sendError sendOk q.browserWs RelayErr.timedOut (some k) else []) ++
      timeoutOuts sendOk now t := by
  by_cases h : now - q.timestamp > pendingTimeoutMs
  · simp [timeoutOuts, h]
  · simp [timeoutOuts, h]

theorem count_timeoutOuts_zero (sendOk : Nat → Bool) (now : Int)
    (l : List (String × PendingRequest)) (w : Nat) (rid : String)
    (h : rid ∉ keysOf l) :
    (timeoutOuts sendOk now l).count
      (w, OutMsg.errorMsg (some rid) RelayErr.timedOut) = 0 := by
  induction l with
  | nil => simp [timeoutOuts]
  | cons e t ih =>
    obtain ⟨a, b⟩ := e
    simp only [keysOf, List.map_cons, List.mem_cons, not_or] at h
    rw [timeoutOuts_cons, List.count_append,
        ih (by simpa [keysOf] using h.2)]
    by_cases hx : now - b.timestamp > pendingTimeoutMs
    · simp only [hx, if_true, sendError]
      by_cases hs : sendOk b.browserWs = true
      · simp [hs, List.count_cons, Ne.symm h.1]
      · simp [hs]
    · simp [hx]

theorem count_timeoutOuts_one (sendOk : Nat → Bool) (now : Int)
    (l : List (String × PendingRequest)) (rid : String) (p : PendingRequest)
    (hnd : (keysOf l).Nodup) (hl : lookupKey l rid = some p)
    (hexp : now - p.timestamp > pendingTimeoutMs)
    (hok : sendOk p.browserWs = true) :
    (timeoutOuts sendOk now l).count
      (p.browserWs, OutMsg.errorMsg (some rid) RelayErr.timedOut) = 1 := by
  induction l with
  | nil => simp [lookupKey] at hl
  | cons e t ih =>
    obtain ⟨a, b⟩ := e
    simp only [keysOf, List.map_cons, List.nodup_cons] at hnd
    rw [timeoutOuts_cons, List.count_append]
    by_cases hak : a = rid
    · subst hak
      simp [lookupKey] at hl
      subst hl
      rw [count_timeoutOuts_zero sendOk now t _ a (by simpa [keysOf] using hnd.1)]
      simp [hexp, sendError, hok, List.count_cons]
    · have hl' : lookupKey t rid = some p := by simpa [lookupKey, hak] using hl
      rw [ih (by simpa [keysOf] using hnd.2) hl']
      by_cases hx : now - b.timestamp > pendingTimeoutMs
      · simp only [hx, if_true, sendError]
        by_cases hs : sendOk b.browserWs = true
        · simp [hs, List.count_cons, hak]
        · simp [hs]
      · simp [hx]

theorem mem_timeoutOuts (sendOk : Nat → Bool) (now : Int)
    (l : List (String × PendingRequest)) (x : Nat × OutMsg)
    (hx : x ∈ timeoutOuts sendOk now l) :
    ∃ k q, (k, q) ∈ l ∧ now - q.timestamp > pendingTimeoutMs ∧
      x = (q.browserWs, OutMsg.errorMsg (some k) RelayErr.timedOut) := by
  induction l with
  | nil => simp [timeoutOuts] at hx
  | cons e t ih =>
    obtain ⟨a, b⟩ := e
    rw [timeoutOuts_cons] at hx
    rcases List.mem_append.mp hx with h1 | h2
    · by_cases hc : now - b.timestamp > pendingTimeoutMs
      · rw [if_pos hc, sendError] at h1
        by_cases hs : sendOk b.browserWs = true
        · rw [if_pos hs, List.mem_singleton] at h1
          exact ⟨a, b, List.mem_cons_self _ _, hc, h1⟩
        · rw [if_neg hs] at h1
          simp at h1
      · simp [hc] at h1
    · obtain ⟨k, q, hmem, hq, hxe⟩ := ih h2
      exact ⟨k, q, List.mem_cons_of_mem _ hmem, hq, hxe⟩

/-! ### Claim theorems -/

/-- Claim C8: whenever the number of tracked peers whose last-connection
timestamp lies within the connection window is at least the configured
global maximum, `allowConnection` denies with the global-limit reason for
every peerId and every source address, leaving the state untouched. -/
theorem C8_global_limit_denies_all (st : RateLimiter) (peerId : String)
    (ip : Option String) (now : Int)
    (h : countActive st now ≥ st.config.globalMaxConnections) :
    allowConnection st peerId ip now = (Decision.deny DenyReason.globalLimit, st) := by
  unfold allowConnection
  rw [if_pos h]

/-- Witness for C8: a concrete limiter with `globalMaxConnections = 1`
and one recently active peer denies any further evaluation. -/
theorem C8_global_limit_denies_all_witness :
    allowConnection ⟨⟨5, 20, 60000, 10, 1, 300000⟩, [("A", ⟨1, 0, 0, 0, false, 0⟩)], [], []⟩ "P" (some "9.9.9.9") 10 =
      (Decision.deny DenyReason.globalLimit,
       ⟨⟨5, 20, 60000, 10, 1, 300000⟩, [("A", ⟨1, 0, 0, 0, false, 0⟩)], [], []⟩) :=
  C8_global_limit_denies_all _ "P" (some "9.9.9.9") 10 (by decide)

/-- Claim C9: `trackBandwidth` allows for peers without state regardless
of the byte count and leaves their state untouched; for peers with state
it only ever changes the bandwidth accumulator and the bandwidth-window
timestamp, never the connection count, last-connection timestamp,
blocked flag or block expiry — whether it returns allow or deny. -/
theorem C9_trackBandwidth_frame (st : RateLimiter) (peerId : String)
    (bytes : Nat) (now : Int) :
    (lookupKey st.peerMetrics peerId = none →
      trackBandwidth st peerId bytes now = (Decision.allow, st)) ∧
    (∀ m, lookupKey st.peerMetrics peerId = some m →
      ∃ m', lookupKey (trackBandwidth st peerId bytes now).2.peerMetrics peerId = some m' ∧
        m'.connections = m.connections ∧ m'.lastConnection = m.lastConnection ∧
        m'.blocked = m.blocked ∧ m'.blockedUntil = m.blockedUntil) := by
  constructor
  · intro h
    simp [trackBandwidth, h]
  · intro m hm
    unfold trackBandwidth
    rw [hm]
    by_cases hb : now - m.lastBandwidthReset ≥ 1000 <;>
      simp only [hb, if_true, if_false, ite_true, ite_false] <;>
      split <;>
      exact ⟨_, lookupKey_setKey_self _ _ _, rfl, rfl, rfl, rfl⟩

/-- Claim C1: with per-peer limit 2 and window 60000ms, three connections
of one peer within 10ms evaluate to allow, allow, deny(peer rate
exceeded), after which the peer is blocked until `now + blockDuration`;
and in general a connection of an unblocked peer within the window whose
count has reached the per-peer maximum is denied with the peer-rate
reason and blocks the peer until `now + blockDuration`. -/
theorem C1_peer_rate_three_strikes :
    ((allowConnection ⟨⟨2, 20, 60000, 10, 1000, 300000⟩, [], [], []⟩ "P" none 0).1 = Decision.allow ∧
     (allowConnection (allowConnection ⟨⟨2, 20, 60000, 10, 1000, 300000⟩, [], [], []⟩ "P" none 0).2 "P" none 5).1 = Decision.allow ∧
     allowConnection (allowConnection (allowConnection ⟨⟨2, 20, 60000, 10, 1000, 300000⟩, [], [], []⟩ "P" none 0).2 "P" none 5).2 "P" none 10 =
       (Decision.deny DenyReason.peerRate,
        ⟨⟨2, 20, 60000, 10, 1000, 300000⟩, [("P", ⟨2, 0, 0, 0, true, 10 + 300000⟩)], [], []⟩)) ∧
    (∀ (st : RateLimiter) (peerId : String) (now : Int) (m : PeerMetrics),
      countActive st now < st.config.globalMaxConnections →
      lookupKey st.peerMetrics peerId = some m →
      m.blocked = false →
      now - m.lastConnection < st.config.connectionWindowMs →
      m.connections ≥ st.config.maxConnectionsPerPeer →
      allowConnection st peerId none now =
        (Decision.deny DenyReason.peerRate, ratePenalized st peerId m now)) := by
  constructor
  · refine ⟨by decide, by decide, by decide⟩
  · intro st peerId now m hg hm hb hw hc
    unfold allowConnection
    rw [if_neg (not_le.mpr hg)]
    simp only [List.contains, if_neg Bool.false_ne_true]
    simp only [hm, ratePenalized]
    rw [if_neg (by simp [hb])]
    simp only [hb, Bool.false_eq_true, false_and, if_neg, ite_false]
    rw [if_pos hw, if_pos hc]

/-- Witness for C1's general conjunct: a peer at its limit within the
window is denied and penalized. -/
theorem C1_peer_rate_three_strikes_witness :
    allowConnection ⟨⟨2, 20, 60000, 10, 1000, 300000⟩, [("P", ⟨2, 0, 0, 0, false, 0⟩)], [], []⟩ "P" none 10 =
      (Decision.deny DenyReason.peerRate,
       ratePenalized ⟨⟨2, 20, 60000, 10, 1000, 300000⟩, [("P", ⟨2, 0, 0, 0, false, 0⟩)], [], []⟩ "P" ⟨2, 0, 0, 0, false, 0⟩ 10) :=
  C1_peer_rate_three_strikes.2 _ "P" 10 ⟨2, 0, 0, 0, false, 0⟩
    (by decide) (by decide) rfl (by decide) (by decide)

/-- Counterexample to claim C5: the claim says the within-window allow
branch increments the count *and* the timestamp; on a peer whose state
has `lastConnection = 0`, an allowed within-window connection at
`now = 100` increments the count to 2 but leaves `lastConnection = 0`
instead of refreshing it to 100. -/
theorem C5_counterexample :
    (allowConnection ⟨⟨5, 20, 60000, 10, 1000, 300000⟩, [("P", ⟨1, 0, 0, 0, false, 0⟩)], [], []⟩ "P" none 100).1 = Decision.allow ∧
    lookupKey (allowConnection ⟨⟨5, 20, 60000, 10, 1000, 300000⟩, [("P", ⟨1, 0, 0, 0, false, 0⟩)], [], []⟩ "P" none 100).2.peerMetrics "P" =
      some ⟨2, 0, 0, 0, false, 0⟩ ∧
    ¬ lookupKey (allowConnection ⟨⟨5, 20, 60000, 10, 1000, 300000⟩, [("P", ⟨1, 0, 0, 0, false, 0⟩)], [], []⟩ "P" none 100).2.peerMetrics "P" =
        some ⟨2, 100, 0, 0, false, 0⟩ := by
  refine ⟨by decide, by decide, by decide⟩

/-- Claim C5 as amended: for an unblocked peer with existing state,
step 5 holds except that the within-window allow branch increments only
the count and leaves the last-connection timestamp unchanged; count and
timestamp are both reset (to 1 and `now`) only when a new window has
started. -/
theorem C5_step5_behaviour (st : RateLimiter) (peerId : String) (now : Int)
    (m : PeerMetrics)
    (hg : countActive st now < st.config.globalMaxConnections)
    (hm : lookupKey st.peerMetrics peerId = some m)
    (hb : m.blocked = false) :
    (now - m.lastConnection < st.config.connectionWindowMs →
      m.connections ≥ st.config.maxConnectionsPerPeer →
      allowConnection st peerId none now =
        (Decision.deny DenyReason.peerRate, ratePenalized st peerId m now)) ∧
    (now - m.lastConnection < st.config.connectionWindowMs →
      m.connections < st.config.maxConnectionsPerPeer →
      allowConnection st peerId none now =
        (Decision.allow, { st with peerMetrics := setKey st.peerMetrics peerId ({ m with connections := m.connections + 1 }) })) ∧
    (now - m.lastConnection ≥ st.config.connectionWindowMs →
      allowConnection st peerId none now =
        (Decision.allow, { st with peerMetrics := setKey st.peerMetrics peerId ({ m with connections := 1, lastConnection := now }) })) := by
  refine ⟨?_, ?_, ?_⟩ <;>
    [ (intro hw hc); (intro hw hc); (intro hw) ] <;>
    · unfold allowConnection
      rw [if_neg (not_le.mpr hg)]
      simp only [List.contains, if_neg Bool.false_ne_true]
      simp only [hm, ratePenalized]
      rw [if_neg (by simp [hb])]
      simp only [hb, Bool.false_eq_true, false_and, if_neg, ite_false]
      first
        | rw [if_pos hw, if_pos hc]
        | rw [if_pos hw, if_neg (not_le.mpr hc)]
        | rw [if_neg (not_lt.mpr hw)]

/-- Witness for C5's amended statement: the three branches at concrete
inputs. -/
theorem C5_step5_behaviour_witness :
    allowConnection ⟨⟨5, 20, 60000, 10, 1000, 300000⟩, [("P", ⟨1, 0, 0, 0, false, 0⟩)], [], []⟩ "P" none 100 =
      (Decision.allow, { (⟨⟨5, 20, 60000, 10, 1000, 300000⟩, [("P", ⟨1, 0, 0, 0, false, 0⟩)], [], []⟩ : RateLimiter) with peerMetrics := setKey [("P", ⟨1, 0, 0, 0, false, 0⟩)] "P" (⟨2, 0, 0, 0, false, 0⟩ : PeerMetrics) }) ∧
    allowConnection ⟨⟨5, 20, 60000, 10, 1000, 300000⟩, [("P", ⟨1, 0, 0, 0, false, 0⟩)], [], []⟩ "P" none 70000 =
      (Decision.allow, { (⟨⟨5, 20, 60000, 10, 1000, 300000⟩, [("P", ⟨1, 0, 0, 0, false, 0⟩)], [], []⟩ : RateLimiter) with peerMetrics := setKey [("P", ⟨1, 0, 0, 0, false, 0⟩)] "P" (⟨1, 70000, 0, 0, false, 0⟩ : PeerMetrics) }) :=
  ⟨(C5_step5_behaviour ⟨⟨5, 20, 60000, 10, 1000, 300000⟩, [("P", ⟨1, 0, 0, 0, false, 0⟩)], [], []⟩ "P" 100 ⟨1, 0, 0, 0, false, 0⟩ (by decide) (by decide) rfl).2.1
      (by decide) (by decide),
   (C5_step5_behaviour ⟨⟨5, 20, 60000, 10, 1000, 300000⟩, [("P", ⟨1, 0, 0, 0, false, 0⟩)], [], []⟩ "P" 70000 ⟨1, 0, 0, 0, false, 0⟩ (by decide) (by decide) rfl).2.2
      (by decide)⟩

/-- Witness for C9: an unknown peer is allowed at any byte count, and a
known peer's connection-rate fields survive a bandwidth-denying call. -/
theorem C9_trackBandwidth_frame_witness :
    trackBandwidth ⟨⟨5, 20, 60000, 10, 1000, 300000⟩, [], [], []⟩ "P" 999999999 0 =
      (Decision.allow, ⟨⟨5, 20, 60000, 10, 1000, 300000⟩, [], [], []⟩) ∧
    ∃ m', lookupKey (trackBandwidth ⟨⟨5, 20, 60000, 10, 1000, 300000⟩, [("P", ⟨3, 7, 0, 0, true, 42⟩)], [], []⟩ "P" 999999999 0).2.peerMetrics "P" = some m' ∧
      m'.connections = 3 ∧ m'.lastConnection = 7 ∧ m'.blocked = true ∧ m'.blockedUntil = 42 :=
  ⟨(C9_trackBandwidth_frame ⟨⟨5, 20, 60000, 10, 1000, 300000⟩, [], [], []⟩ "P" 999999999 0).1 rfl,
   (C9_trackBandwidth_frame ⟨⟨5, 20, 60000, 10, 1000, 300000⟩, [("P", ⟨3, 7, 0, 0, true, 42⟩)], [], []⟩ "P" 999999999 0).2 ⟨3, 7, 0, 0, true, 42⟩ rfl⟩

/-- Claim C7: for a blocked peer whose block expiry has passed, the next
evaluation (carrying no source address) clears the blocked flag, allows
the connection and leaves the peer's connection count at exactly 1.
The per-peer maximum is positive, as guaranteed by the constructor's
defaulting of falsy values. -/
theorem C7_block_expiry_reset (st : RateLimiter) (peerId : String)
    (now : Int) (m : PeerMetrics)
    (hg : countActive st now < st.config.globalMaxConnections)
    (hm : lookupKey st.peerMetrics peerId = some m)
    (hb : m.blocked = true)
    (hexp : m.blockedUntil ≤ now)
    (hmax : 0 < st.config.maxConnectionsPerPeer) :
    (allowConnection st peerId none now).1 = Decision.allow ∧
    ∃ m', lookupKey (allowConnection st peerId none now).2.peerMetrics peerId = some m' ∧
      m'.blocked = false ∧ m'.connections = 1 := by
  unfold allowConnection
  rw [if_neg (not_le.mpr hg)]
  simp only [List.contains, if_neg Bool.false_ne_true]
  simp only [hm]
  rw [if_neg (show ¬(m.blocked = true ∧ now < m.blockedUntil) by simp [not_lt.mpr hexp])]
  simp only [hb, ge_iff_le, hexp, and_self, and_true, true_and, if_true, ite_true]
  by_cases hw : now - m.lastConnection < st.config.connectionWindowMs <;>
    simp only [hw, if_true, if_false, ite_true, ite_false, ge_iff_le,
               not_le.mpr hmax] <;>
    exact ⟨trivial, _, lookupKey_setKey_self _ _ _, rfl, rfl⟩

/-- Witness for C7: a peer blocked until 50 is allowed again at time 60
with its count reset to 1. -/
theorem C7_block_expiry_reset_witness :
    (allowConnection ⟨⟨5, 20, 60000, 10, 1000, 300000⟩, [("P", ⟨4, 0, 0, 0, true, 50⟩)], [], []⟩ "P" none 60).1 = Decision.allow ∧
    ∃ m', lookupKey (allowConnection ⟨⟨5, 20, 60000, 10, 1000, 300000⟩, [("P", ⟨4, 0, 0, 0, true, 50⟩)], [], []⟩ "P" none 60).2.peerMetrics "P" = some m' ∧
      m'.blocked = false ∧ m'.connections = 1 :=
  C7_block_expiry_reset ⟨⟨5, 20, 60000, 10, 1000, 300000⟩, [("P", ⟨4, 0, 0, 0, true, 50⟩)], [], []⟩ "P" 60 ⟨4, 0, 0, 0, true, 50⟩
    (by decide) (by decide) rfl (by decide) (by decide)

/-- Claim C3: once a source address's within-window count has reached the
per-IP maximum, the next evaluation carrying that address (not yet
blocked, global limit not reached) moves the address into the
permanently blocked set and denies with the IP-limit reason; thereafter
every evaluation carrying that address (global limit not reached) is
denied with the address-blocked reason, at any later time whatsoever and
without state change, until `unblockIP` removes the address. -/
theorem C3_ip_escalation_and_standing_block (st : RateLimiter)
    (peerId : String) (ip : String) (now : Int) :
    (∀ im, countActive st now < st.config.globalMaxConnections →
      ip ∉ st.blockedIPs →
      lookupKey st.ipMetrics ip = some im →
      now - im.lastConnection < st.config.connectionWindowMs →
      im.connections ≥ st.config.maxConnectionsPerIP →
      allowConnection st peerId (some ip) now =
        (Decision.deny DenyReason.ipLimit, { st with blockedIPs := addToSet st.blockedIPs ip }) ∧
      ip ∈ addToSet st.blockedIPs ip) ∧
    (countActive st now < st.config.globalMaxConnections →
      ip ∈ st.blockedIPs →
      allowConnection st peerId (some ip) now = (Decision.deny DenyReason.ipBlocked, st)) ∧
    ip ∉ (unblockIP st ip).blockedIPs := by
  refine ⟨?_, ?_, ?_⟩
  · intro im hg hnb him hw hc
    constructor
    · unfold allowConnection
      rw [if_neg (not_le.mpr hg)]
      rw [if_neg (by simp [hnb])]
      unfold checkIPLimit
      simp only [him]
      rw [if_neg (by simpa using not_le.mpr hw)]
      rw [if_pos hc]
    · unfold addToSet
      split
      · assumption
      · simp
  · intro hg hbk
    unfold allowConnection
    rw [if_neg (not_le.mpr hg)]
    rw [if_pos (by simp [hbk])]
  · simp [unblockIP]

/-- Witness for C3: with per-IP limit 2, an address whose count is 2
within the window is escalated into the blocked set, and a blocked
address is denied much later and is removable by `unblockIP`. -/
theorem C3_ip_escalation_and_standing_block_witness :
    (allowConnection ⟨⟨5, 2, 60000, 10, 1000, 300000⟩, [], [("1.2.3.4", ⟨2, 0, []⟩)], []⟩ "P" (some "1.2.3.4") 10 =
      (Decision.deny DenyReason.ipLimit, { (⟨⟨5, 2, 60000, 10, 1000, 300000⟩, [], [("1.2.3.4", ⟨2, 0, []⟩)], []⟩ : RateLimiter) with blockedIPs := addToSet [] "1.2.3.4" }) ∧
     "1.2.3.4" ∈ addToSet ([] : List String) "1.2.3.4") ∧
    allowConnection ⟨⟨5, 2, 60000, 10, 1000, 300000⟩, [], [("1.2.3.4", ⟨2, 0, []⟩)], ["1.2.3.4"]⟩ "Q" (some "1.2.3.4") 999999999 =
      (Decision.deny DenyReason.ipBlocked, ⟨⟨5, 2, 60000, 10, 1000, 300000⟩, [], [("1.2.3.4", ⟨2, 0, []⟩)], ["1.2.3.4"]⟩) ∧
    "1.2.3.4" ∉ (unblockIP ⟨⟨5, 2, 60000, 10, 1000, 300000⟩, [], [("1.2.3.4", ⟨2, 0, []⟩)], ["1.2.3.4"]⟩ "1.2.3.4").blockedIPs :=
  ⟨(C3_ip_escalation_and_standing_block ⟨⟨5, 2, 60000, 10, 1000, 300000⟩, [], [("1.2.3.4", ⟨2, 0, []⟩)], []⟩ "P" "1.2.3.4" 10).1
      ⟨2, 0, []⟩ (by decide) (by decide) rfl (by decide) (by decide),
   (C3_ip_escalation_and_standing_block ⟨⟨5, 2, 60000, 10, 1000, 300000⟩, [], [("1.2.3.4", ⟨2, 0, []⟩)], ["1.2.3.4"]⟩ "Q" "1.2.3.4" 999999999).2.1
      (by decide) (by decide),
   (C3_ip_escalation_and_standing_block ⟨⟨5, 2, 60000, 10, 1000, 300000⟩, [], [("1.2.3.4", ⟨2, 0, []⟩)], ["1.2.3.4"]⟩ "Q" "1.2.3.4" 999999999).2.2⟩

/-- Claim C2: a successfully forwarded request followed by a response
with the same requestId delivers the result to the originally recorded
origin channel exactly once and removes the pending entry; a second
response with that requestId — and generally any response whose
requestId has no pending entry — sends nothing and leaves the
pending-request table unchanged. -/
theorem C2_response_delivered_once (sendOk : Nat → Bool)
    (st : StorageWebSocketRelay) (ws : Nat)
    (requestId data contentType : String) (authorization : Option String)
    (target : String) (nc : NodeConnection) (now : Int)
    (success : Bool) (cid error : Option String)
    (hr : requestId ≠ "") (hd : data ≠ "")
    (ht : lookupKey st.nodeConnections target = some nc)
    (hfwd : sendOk nc.ws = true) (horig : sendOk ws = true) :
    ((handleStorageResponse sendOk (handleStorageRequest sendOk st ws requestId data contentType authorization (some target) now).1 requestId success cid error).2 =
      [(ws, OutMsg.storageResponse requestId success cid error)] ∧
     lookupKey (handleStorageResponse sendOk (handleStorageRequest sendOk st ws requestId data contentType authorization (some target) now).1 requestId success cid error).1.pendingRequests requestId = none ∧
     handleStorageResponse sendOk (handleStorageResponse sendOk (handleStorageRequest sendOk st ws requestId data contentType authorization (some target) now).1 requestId success cid error).1 requestId success cid error =
       ((handleStorageResponse sendOk (handleStorageRequest sendOk st ws requestId data contentType authorization (some target) now).1 requestId success cid error).1, [])) ∧
    (∀ (sendOk' : Nat → Bool) (st' : StorageWebSocketRelay) (rid : String)
        (s' : Bool) (c' e' : Option String),
      lookupKey st'.pendingRequests rid = none →
      handleStorageResponse sendOk' st' rid s' c' e' = (st', [])) := by
  have hnoMatch : ∀ (sendOk' : Nat → Bool) (st' : StorageWebSocketRelay)
      (rid : String) (s' : Bool) (c' e' : Option String),
      lookupKey st'.pendingRequests rid = none →
      handleStorageResponse sendOk' st' rid s' c' e' = (st', []) := by
    intro sendOk' st' rid s' c' e' h
    unfold handleStorageResponse
    rw [h]
  have hst1 : (handleStorageRequest sendOk st ws requestId data contentType authorization (some target) now).1 =
      { st with pendingRequests := setKey st.pendingRequests requestId ⟨ws, requestId, now⟩ } := by
    unfold handleStorageRequest
    rw [if_neg (by simp [hr, hd])]
    simp only [ht]
    rw [if_pos hfwd]
  have hresp : handleStorageResponse sendOk { st with pendingRequests := setKey st.pendingRequests requestId ⟨ws, requestId, now⟩ } requestId success cid error =
      ({ st with pendingRequests := eraseKey (setKey st.pendingRequests requestId ⟨ws, requestId, now⟩) requestId },
       [(ws, OutMsg.storageResponse requestId success cid error)]) := by
    unfold handleStorageResponse
    rw [lookupKey_setKey_self]
    simp only [horig, if_true, ite_true]
  refine ⟨⟨?_, ?_, ?_⟩, hnoMatch⟩
  · rw [hst1, hresp]
  · rw [hst1, hresp]
    exact lookupKey_eraseKey_self _ _
  · apply hnoMatch
    rw [hst1, hresp]
    exact lookupKey_eraseKey_self _ _

/-- Witness for C2: a concrete round trip through one registered backend
and a duplicate response that is a no-op. -/
theorem C2_response_delivered_once_witness :
    ((handleStorageResponse (fun _ => true) (handleStorageRequest (fun _ => true) ⟨[("B1", ⟨5, "B1", none, 0⟩)], []⟩ 2 "r1" "d" "ct" none (some "B1") 100).1 "r1" true (some "cid") none).2 =
      [(2, OutMsg.storageResponse "r1" true (some "cid") none)] ∧
     lookupKey (handleStorageResponse (fun _ => true) (handleStorageRequest (fun _ => true) ⟨[("B1", ⟨5, "B1", none, 0⟩)], []⟩ 2 "r1" "d" "ct" none (some "B1") 100).1 "r1" true (some "cid") none).1.pendingRequests "r1" = none ∧
     handleStorageResponse (fun _ => true) (handleStorageResponse (fun _ => true) (handleStorageRequest (fun _ => true) ⟨[("B1", ⟨5, "B1", none, 0⟩)], []⟩ 2 "r1" "d" "ct" none (some "B1") 100).1 "r1" true (some "cid") none).1 "r1" true (some "cid") none =
       ((handleStorageResponse (fun _ => true) (handleStorageRequest (fun _ => true) ⟨[("B1", ⟨5, "B1", none, 0⟩)], []⟩ 2 "r1" "d" "ct" none (some "B1") 100).1 "r1" true (some "cid") none).1, []) ∧
     handleStorageResponse (fun _ => true) ⟨[], []⟩ "zzz" false none none = (⟨[], []⟩, [])) :=
  have h := C2_response_delivered_once (fun _ => true) ⟨[("B1", ⟨5, "B1", none, 0⟩)], []⟩ 2 "r1" "d" "ct" none "B1" ⟨5, "B1", none, 0⟩ 100 true (some "cid") none
    (by decide) (by decide) rfl rfl rfl
  ⟨h.1.1, h.1.2.1, h.1.2.2, h.2 (fun _ => true) ⟨[], []⟩ "zzz" false none none rfl⟩

/-- Counterexample to claim C6: a failure path of `handleStorageRequest`
that does change the pending-request table.  With a pending entry already
recorded for requestId "r" and a registered backend whose channel send
fails, the duplicate submit replaces the old entry and then deletes the
key, so the table goes from one entry to empty even though the call
failed (forwarding-failure error reported to the origin). -/
theorem C6_counterexample :
    (handleStorageRequest (fun ch => ch != 5) ⟨[("B1", ⟨5, "B1", none, 0⟩)], [("r", ⟨1, "r", 0⟩)]⟩ 2 "r" "d" "ct" none (some "B1") 100).2 =
      [(2, OutMsg.errorMsg (some "r") RelayErr.forwardFailed)] ∧
    (handleStorageRequest (fun ch => ch != 5) ⟨[("B1", ⟨5, "B1", none, 0⟩)], [("r", ⟨1, "r", 0⟩)]⟩ 2 "r" "d" "ct" none (some "B1") 100).1.pendingRequests = [] ∧
    (handleStorageRequest (fun ch => ch != 5) ⟨[("B1", ⟨5, "B1", none, 0⟩)], [("r", ⟨1, "r", 0⟩)]⟩ 2 "r" "d" "ct" none (some "B1") 100).1.pendingRequests ≠
      [("r", ⟨1, "r", 0⟩)] := by
  refine ⟨by decide, by decide, by decide⟩

/-- Claim C6 as amended: provided the requestId is not already pending,
`handleStorageRequest` leaves the pending-request table unchanged on
every failure path — an unregistered target backend is answered with a
backend-not-connected error and creates no pending entry, and a failed
send to the backend's channel removes the just-created entry and reports
forwarding failure to the origin — so a pending entry survives only when
forwarding succeeded.  (Without that proviso a failed send also deletes
a pre-existing entry with the same requestId.) -/
theorem C6_failure_paths_leave_table (sendOk : Nat → Bool)
    (st : StorageWebSocketRelay) (ws : Nat)
    (requestId data contentType : String) (authorization : Option String)
    (target : String) (now : Int)
    (hfresh : lookupKey st.pendingRequests requestId = none)
    (hr : requestId ≠ "") (hd : data ≠ "") (horig : sendOk ws = true) :
    (lookupKey st.nodeConnections target = none →
      handleStorageRequest sendOk st ws requestId data contentType authorization (some target) now =
        (st, [(ws, OutMsg.errorMsg (some requestId) (RelayErr.nodeNotConnected target))])) ∧
    (∀ nc, lookupKey st.nodeConnections target = some nc → sendOk nc.ws = false →
      (handleStorageRequest sendOk st ws requestId data contentType authorization (some target) now).1 = st ∧
      (handleStorageRequest sendOk st ws requestId data contentType authorization (some target) now).2 =
        [(ws, OutMsg.errorMsg (some requestId) RelayErr.forwardFailed)]) ∧
    (∀ nc, lookupKey st.nodeConnections target = some nc → sendOk nc.ws = true →
      lookupKey (handleStorageRequest sendOk st ws requestId data contentType authorization (some target) now).1.pendingRequests requestId =
        some ⟨ws, requestId, now⟩) := by
  refine ⟨?_, ?_, ?_⟩
  · intro hmiss
    unfold handleStorageRequest
    rw [if_neg (by simp [hr, hd])]
    simp only [hmiss]
    simp [sendError, horig]
  · intro nc hnc hfail
    have hcall : handleStorageRequest sendOk st ws requestId data contentType authorization (some target) now =
        ({ st with pendingRequests := eraseKey (setKey st.pendingRequests requestId ⟨ws, requestId, now⟩) requestId },
         sendError sendOk ws RelayErr.forwardFailed (some requestId)) := by
      unfold handleStorageRequest
      rw [if_neg (by simp [hr, hd])]
      simp only [hnc]
      rw [if_neg (by simp [hfail])]
    rw [hcall]
    constructor
    · show ({ st with pendingRequests := eraseKey (setKey st.pendingRequests requestId ⟨ws, requestId, now⟩) requestId } : StorageWebSocketRelay) = st
      rw [eraseKey_setKey_self, eraseKey_eq_self_of_lookup_none _ _ hfresh]
    · simp [sendError, horig]
  · intro nc hnc hok
    have hcall : (handleStorageRequest sendOk st ws requestId data contentType authorization (some target) now).1 =
        { st with pendingRequests := setKey st.pendingRequests requestId ⟨ws, requestId, now⟩ } := by
      unfold handleStorageRequest
      rw [if_neg (by simp [hr, hd])]
      simp only [hnc]
      rw [if_pos hok]
    rw [hcall]
    exact lookupKey_setKey_self _ _ _

/-- Witness for C6's amended statement: both failure paths and the
success path at concrete inputs with an empty pending table. -/
theorem C6_failure_paths_leave_table_witness :
    (handleStorageRequest (fun ch => ch != 5) ⟨[("B1", ⟨5, "B1", none, 0⟩)], []⟩ 2 "r" "d" "ct" none (some "B3") 100 =
      (⟨[("B1", ⟨5, "B1", none, 0⟩)], []⟩, [(2, OutMsg.errorMsg (some "r") (RelayErr.nodeNotConnected "B3"))])) ∧
    ((handleStorageRequest (fun ch => ch != 5) ⟨[("B1", ⟨5, "B1", none, 0⟩)], []⟩ 2 "r" "d" "ct" none (some "B1") 100).1 = ⟨[("B1", ⟨5, "B1", none, 0⟩)], []⟩ ∧
     (handleStorageRequest (fun ch => ch != 5) ⟨[("B1", ⟨5, "B1", none, 0⟩)], []⟩ 2 "r" "d" "ct" none (some "B1") 100).2 =
       [(2, OutMsg.errorMsg (some "r") RelayErr.forwardFailed)]) ∧
    lookupKey (handleStorageRequest (fun _ => true) ⟨[("B1", ⟨5, "B1", none, 0⟩)], []⟩ 2 "r" "d" "ct" none (some "B1") 100).1.pendingRequests "r" =
      some ⟨2, "r", 100⟩ :=
  ⟨(C6_failure_paths_leave_table (fun ch => ch != 5) ⟨[("B1", ⟨5, "B1", none, 0⟩)], []⟩ 2 "r" "d" "ct" none "B3" 100 rfl (by decide) (by decide) rfl).1 rfl,
   (C6_failure_paths_leave_table (fun ch => ch != 5) ⟨[("B1", ⟨5, "B1", none, 0⟩)], []⟩ 2 "r" "d" "ct" none "B1" 100 rfl (by decide) (by decide) rfl).2.1 ⟨5, "B1", none, 0⟩ rfl rfl,
   (C6_failure_paths_leave_table (fun _ => true) ⟨[("B1", ⟨5, "B1", none, 0⟩)], []⟩ 2 "r" "d" "ct" none "B1" 100 rfl (by decide) (by decide) rfl).2.2 ⟨5, "B1", none, 0⟩ rfl rfl⟩

/-- Claim C10: a duplicate submit whose requestId already has a pending
entry and whose target backend is registered is not rejected: it forwards
normally, silently replaces the pending entry with one recording the new
origin channel and current timestamp, and a later response or timeout for
that requestId goes only to the new origin channel. -/
theorem C10_duplicate_submit_replaces (sendOk : Nat → Bool)
    (st : StorageWebSocketRelay) (ws2 : Nat)
    (requestId data contentType : String) (authorization : Option String)
    (target : String) (nc : NodeConnection) (oldp : PendingRequest)
    (now later : Int) (success : Bool) (cid error : Option String)
    (_hold : lookupKey st.pendingRequests requestId = some oldp)
    (hnd : (keysOf st.pendingRequests).Nodup)
    (hr : requestId ≠ "") (hd : data ≠ "")
    (ht : lookupKey st.nodeConnections target = some nc)
    (hfwd : sendOk nc.ws = true) (hok2 : sendOk ws2 = true) :
    (handleStorageRequest sendOk st ws2 requestId data contentType authorization (some target) now).2 =
      [(nc.ws, OutMsg.forwardRequest requestId data contentType authorization)] ∧
    lookupKey (handleStorageRequest sendOk st ws2 requestId data contentType authorization (some target) now).1.pendingRequests requestId = some ⟨ws2, requestId, now⟩ ∧
    (handleStorageResponse sendOk (handleStorageRequest sendOk st ws2 requestId data contentType authorization (some target) now).1 requestId success cid error).2 =
      [(ws2, OutMsg.storageResponse requestId success cid error)] ∧
    (∀ w, (w, OutMsg.errorMsg (some requestId) RelayErr.timedOut) ∈
        (cleanupPendingRequests sendOk (handleStorageRequest sendOk st ws2 requestId data contentType authorization (some target) now).1 later).2 →
      w = ws2) := by
  have hcall : handleStorageRequest sendOk st ws2 requestId data contentType authorization (some target) now =
      ({ st with pendingRequests := setKey st.pendingRequests requestId ⟨ws2, requestId, now⟩ },
       [(nc.ws, OutMsg.forwardRequest requestId data contentType authorization)]) := by
    unfold handleStorageRequest
    rw [if_neg (by simp [hr, hd])]
    simp only [ht]
    rw [if_pos hfwd]
  refine ⟨?_, ?_, ?_, ?_⟩
  · rw [hcall]
  · rw [hcall]
    exact lookupKey_setKey_self _ _ _
  · rw [hcall]
    unfold handleStorageResponse
    rw [lookupKey_setKey_self]
    simp [hok2]
  · intro w hw
    rw [hcall] at hw
    have hw' : (w, OutMsg.errorMsg (some requestId) RelayErr.timedOut) ∈
        timeoutOuts sendOk later (setKey st.pendingRequests requestId ⟨ws2, requestId, now⟩) := hw
    obtain ⟨k, q, hmem, hqexp, heq⟩ := mem_timeoutOuts _ _ _ _ hw'
    have h1 : w = q.browserWs := congrArg Prod.fst heq
    have h2 : OutMsg.errorMsg (some requestId) RelayErr.timedOut =
        OutMsg.errorMsg (some k) RelayErr.timedOut := congrArg Prod.snd heq
    have h3 : requestId = k := by simpa using h2
    subst h3
    have hq : q = ⟨ws2, requestId, now⟩ := mem_setKey_self_eq _ _ _ _ hnd hmem
    rw [h1, hq]

/-- Witness for C10: peer "r" is pending for channel 1; channel 2
resubmits it to registered backend "B1"; the entry now names channel 2,
the response goes to channel 2, and the timed-out error that the sweep
emits for "r" went to the channel the theorem says it must. -/
theorem C10_duplicate_submit_replaces_witness :
    (handleStorageRequest (fun _ => true) ⟨[("B1", ⟨5, "B1", none, 0⟩)], [("r", ⟨1, "r", 0⟩)]⟩ 2 "r" "d" "ct" none (some "B1") 100).2 =
      [(5, OutMsg.forwardRequest "r" "d" "ct" none)] ∧
    lookupKey (handleStorageRequest (fun _ => true) ⟨[("B1", ⟨5, "B1", none, 0⟩)], [("r", ⟨1, "r", 0⟩)]⟩ 2 "r" "d" "ct" none (some "B1") 100).1.pendingRequests "r" = some ⟨2, "r", 100⟩ ∧
    (handleStorageResponse (fun _ => true) (handleStorageRequest (fun _ => true) ⟨[("B1", ⟨5, "B1", none, 0⟩)], [("r", ⟨1, "r", 0⟩)]⟩ 2 "r" "d" "ct" none (some "B1") 100).1 "r" true none none).2 =
      [(2, OutMsg.storageResponse "r" true none none)] ∧
    (2 : Nat) = 2 :=
  have h := C10_duplicate_submit_replaces (fun _ => true) ⟨[("B1", ⟨5, "B1", none, 0⟩)], [("r", ⟨1, "r", 0⟩)]⟩ 2 "r" "d" "ct" none "B1" ⟨5, "B1", none, 0⟩ ⟨1, "r", 0⟩ 100 70200 true none none
    rfl (by decide) (by decide) (by decide) rfl rfl rfl
  ⟨h.1, h.2.1, h.2.2.1, h.2.2.2 2 (by decide)⟩

/-- Claim C4: a pending request strictly older than the timeout threshold
gets exactly one timed-out notification to its origin channel from the
sweep and is removed; a real response for that requestId arriving after
the sweep is discarded without anything being sent. -/
theorem C4_timeout_sweep_exactly_once (sendOk : Nat → Bool)
    (st : StorageWebSocketRelay) (requestId : String) (p : PendingRequest)
    (now : Int) (success : Bool) (cid error : Option String)
    (hnd : (keysOf st.pendingRequests).Nodup)
    (hp : lookupKey st.pendingRequests requestId = some p)
    (hexp : now - p.timestamp > pendingTimeoutMs)
    (hok : sendOk p.browserWs = true) :
    (cleanupPendingRequests sendOk st now).2.count
      (p.browserWs, OutMsg.errorMsg (some requestId) RelayErr.timedOut) = 1 ∧
    lookupKey (cleanupPendingRequests sendOk st now).1.pendingRequests requestId = none ∧
    handleStorageResponse sendOk (cleanupPendingRequests sendOk st now).1 requestId success cid error =
      ((cleanupPendingRequests sendOk st now).1, []) := by
  have hrem : lookupKey (cleanupPendingRequests sendOk st now).1.pendingRequests requestId = none := by
    have h := lookupKey_filter_eq_none
      (fun q => ¬ (now - q.2.timestamp > pendingTimeoutMs))
      st.pendingRequests requestId p hnd hp (by simp [hexp])
    exact h
  refine ⟨count_timeoutOuts_one sendOk now st.pendingRequests requestId p hnd hp hexp hok, hrem, ?_⟩
  unfold handleStorageResponse
  rw [hrem]

/-- Witness for C4: one pending request from time 0 swept at time 70000
produces exactly one timed-out error, and the late response is a no-op. -/
theorem C4_timeout_sweep_exactly_once_witness :
    (cleanupPendingRequests (fun _ => true) ⟨[], [("r", ⟨2, "r", 0⟩)]⟩ 70000).2.count
      (2, OutMsg.errorMsg (some "r") RelayErr.timedOut) = 1 ∧
    lookupKey (cleanupPendingRequests (fun _ => true) ⟨[], [("r", ⟨2, "r", 0⟩)]⟩ 70000).1.pendingRequests "r" = none ∧
    handleStorageResponse (fun _ => true) (cleanupPendingRequests (fun _ => true) ⟨[], [("r", ⟨2, "r", 0⟩)]⟩ 70000).1 "r" true none none =
      ((cleanupPendingRequests (fun _ => true) ⟨[], [("r", ⟨2, "r", 0⟩)]⟩ 70000).1, []) :=
  C4_timeout_sweep_exactly_once (fun _ => true) ⟨[], [("r", ⟨2, "r", 0⟩)]⟩ "r" ⟨2, "r", 0⟩ 70000 true none none
    (by decide) rfl (by decide) rfl

end ByteCave
